import Mathlib

/-!
Verification of the voting-app service (`app.py`).

The program keeps an in-memory dictionary `votes` mapping option names to
integer tallies, a Prometheus request counter labelled by (endpoint, method),
and a response-time histogram labelled by endpoint.  Four routes exist:
`GET /` (HTML form), `POST /vote`, `GET /result`, `GET /metrics`; the first
three are wrapped by the `track_metrics` decorator.

Python dictionaries are embedded as association lists with the dict update
semantics (`d[k] += 1` updates the value at the existing key in place,
preserving insertion order).  JSON responses are embedded by a small `Json`
type; `jsonify(x), code` becomes `Resp.jsonR x code`.  Wall-clock durations
measured by the decorator are abstracted as a `Nat` parameter per request,
and the Prometheus exposition serialization (`generate_latest`, library
code) is abstracted as a snapshot of the registry carried in the response.
-/

/-- A vote store: association list from option name to tally,
embedding the Python dict `votes` (line 45). -/
abbrev VStore := List (String × Nat)

/-- `votes = {"Python": 0, "Java": 0, "Go": 0}` (line 45). -/
def initVotes : VStore := [("Python", 0), ("Java", 0), ("Go", 0)]

/-- Python `d.get(k)` / `d[k]` lookup on an association list. -/
def dictGet : VStore → String → Option Nat
  | [], _ => none
  | (k, v) :: rest, key => if k = key then some v else dictGet rest key

/-- Python `k in d` membership test. -/
def dictContains (v : VStore) (k : String) : Bool :=
  (dictGet v k).isSome

/-- Python `d[k] += 1`: update the value at an existing key in place. -/
def dictIncr : VStore → String → VStore
  | [], _ => []
  | (k, v) :: rest, key =>
    if k = key then (k, v + 1) :: rest else (k, v) :: dictIncr rest key

/-- Python `list(d.keys())` in insertion order. -/
def dictKeys (v : VStore) : List String :=
  v.map Prod.fst

/-- A single apostrophe character, as used by Python `repr` of a string. -/
def pyQuote : String := String.singleton (Char.ofNat 39)

/-- Python `repr` of a string (as rendered inside `list(votes.keys())`). -/
def pyRepr (s : String) : String := pyQuote ++ s ++ pyQuote

/-- Python `str(list_of_strings)`, e.g. `["a","b"]` renders to `['a', 'b']`. -/
def pyListRepr (l : List String) : String :=
  "[" ++ String.intercalate ", " (l.map pyRepr) ++ "]"

/-- JSON values appearing in the service's responses. -/
inductive Json where
  | str : String → Json
  | num : Nat → Json
  | obj : List (String × Json) → Json

/-- `jsonify(votes)`: the tally map as a JSON object. -/
def jsonOfVotes (v : VStore) : Json :=
  Json.obj (v.map fun p => (p.1, Json.num p.2))

/-- `CONTENT_TYPE_LATEST` from `prometheus_client`. -/
def CONTENT_TYPE_LATEST : String := "text/plain; version=0.0.4; charset=utf-8"

/-- A Flask response: `jsonify(body), status`, a bare HTML string (status 200),
or the `/metrics` response — `Response(generate_latest(), mimetype=...)`, with
the exposition serialization abstracted as the registry snapshot it serializes
(request-counter samples and response-time observations). -/
inductive Resp where
  | jsonR : Json → Nat → Resp
  | htmlR : String → Resp
  | metricsR : List ((String × String) × Nat) → List (String × List Nat) → String → Resp

/-- HTTP status of a response (Flask gives bare strings status 200). -/
def respStatus : Resp → Nat
  | .jsonR _ code => code
  | .htmlR _ => 200
  | .metricsR _ _ _ => 200

/-- The data a `POST /vote` request supplies:
`form` is `request.form.get("language")` and
`json` is `(request.json or {}).get("language")` (both `None`-able). -/
structure VoteRequest where
  form : Option String
  json : Option String
deriving DecidableEq

/-- Python `a or b` on optional strings: `None` and `""` are falsy
(line 88: `request.form.get("language") or (request.json or {}).get("language")`). -/
def pyOr (a b : Option String) : Option String :=
  match a with
  | none => b
  | some s => if s = "" then b else some s

/-- The body `{"error": "No language provided"}` (line 90). -/
def errNoLanguage : Json :=
  Json.obj [("error", Json.str "No language provided")]

/-- The `vote` route handler (lines 86-95), as a function of the vote store:
chooses the language per line 88, rejects falsy values and unknown options,
otherwise increments the tally and reports the updated map. -/
def vote (req : VoteRequest) (v : VStore) : VStore × Resp :=
  match pyOr req.form req.json with
  | none => (v, Resp.jsonR errNoLanguage 400)
  | some language =>
    if language = "" then (v, Resp.jsonR errNoLanguage 400)
    else if dictContains v language = false then
      (v, Resp.jsonR (Json.obj
        [("error", Json.str ("Invalid choice. Valid: " ++ pyListRepr (dictKeys v)))]) 400)
    else
      let v2 := dictIncr v language
      (v2, Resp.jsonR (Json.obj
        [("message", Json.str ("Vote for " ++ language ++ " recorded!")),
         ("votes", jsonOfVotes v2)]) 200)

/-- The static HTML page returned by `home` (lines 70-82). -/
def homeHtml : String :=
  "\n    <h2>Vote for your favorite language</h2>\n    <form action=\"/vote\" method=\"post\">\n        <input type=\"radio\" name=\"language\" value=\"Python\"> Python<br>\n        <input type=\"radio\" name=\"language\" value=\"Java\"> Java<br>\n        <input type=\"radio\" name=\"language\" value=\"Go\"> Go<br>\n        <input type=\"submit\" value=\"Vote\">\n    </form>\n    <br>\n    <a href=" ++ pyQuote ++ "/result" ++ pyQuote ++ ">View Results (JSON)</a>\n    "

/-- The `home` route handler (lines 70-82): static page, no store mutation. -/
def home (v : VStore) : VStore × Resp :=
  (v, Resp.htmlR homeHtml)

/-- The `result` route handler (lines 99-101): `jsonify(votes), 200`. -/
def result (v : VStore) : VStore × Resp :=
  (v, Resp.jsonR (jsonOfVotes v) 200)

/-- `REQUEST_COUNT.labels(endpoint, method).inc()`: Prometheus creates a child
lazily at 0 on first use, then adds 1. -/
def counterInc : List ((String × String) × Nat) → (String × String) → List ((String × String) × Nat)
  | [], lbl => [(lbl, 1)]
  | (k, n) :: rest, lbl =>
    if k = lbl then (k, n + 1) :: rest else (k, n) :: counterInc rest lbl

/-- Current sample value of the counter for a label pair (0 if never observed). -/
def counterGet : List ((String × String) × Nat) → (String × String) → Nat
  | [], _ => 0
  | (k, n) :: rest, lbl => if k = lbl then n else counterGet rest lbl

/-- `RESPONSE_TIME.labels(endpoint).observe(duration)`: append one observation
to the endpoint's histogram (created lazily). -/
def histObserve : List (String × List Nat) → String → Nat → List (String × List Nat)
  | [], e, d => [(e, [d])]
  | (k, ds) :: rest, e, d =>
    if k = e then (k, ds ++ [d]) :: rest else (k, ds) :: histObserve rest e d

/-- Number of observations recorded for an endpoint (0 if never observed). -/
def histCount : List (String × List Nat) → String → Nat
  | [], _ => 0
  | (k, ds) :: rest, e => if k = e then ds.length else histCount rest e

/-- The process-wide mutable state: the vote store plus the metrics registry
(`REQUEST_COUNT` children and `RESPONSE_TIME` children). -/
structure AppState where
  votes : VStore
  requestCount : List ((String × String) × Nat)
  responseTime : List (String × List Nat)
deriving DecidableEq

/-- State at process start: zeroed tallies, empty registry (children are lazy). -/
def initAppState : AppState :=
  { votes := initVotes, requestCount := [], responseTime := [] }

/-- The `track_metrics(endpoint_name)` decorator (lines 50-62) applied to a
handler: increments the request counter for (endpoint, method) before invoking
the handler, invokes it, records one elapsed-time observation afterwards, and
returns the handler's response.  The wall-clock duration measured by
`time.time()` is abstracted as the parameter `dur`. -/
def track_metrics (endpoint_name method : String)
    (func : VStore → VStore × Resp) (dur : Nat) (s : AppState) : AppState × Resp :=
  let rc := counterInc s.requestCount (endpoint_name, method)
  let r := func s.votes
  let rt := histObserve s.responseTime endpoint_name dur
  ({ votes := r.1, requestCount := rc, responseTime := rt }, r.2)

/-- The `metrics` route (lines 104-106): not wrapped; serializes the registry
(abstracted as a snapshot) with the Prometheus content type; no state change. -/
def metrics (s : AppState) : AppState × Resp :=
  (s, Resp.metricsR s.requestCount s.responseTime CONTENT_TYPE_LATEST)

/-- One inbound HTTP request.  Wrapped routes carry the abstracted wall-clock
duration their handler takes. -/
inductive Request where
  | homeReq : Nat → Request
  | voteReq : VoteRequest → Nat → Request
  | resultReq : Nat → Request
  | metricsReq : Request
deriving DecidableEq

/-- Route dispatch: `/`, `/vote`, `/result` are wrapped by `track_metrics`
with their decorator arguments and Flask methods; `/metrics` is not wrapped. -/
def dispatch (s : AppState) : Request → AppState × Resp
  | .homeReq d => track_metrics "/" "GET" home d s
  | .voteReq r d => track_metrics "/vote" "POST" (vote r) d s
  | .resultReq d => track_metrics "/result" "GET" result d s
  | .metricsReq => metrics s

/-- Run a sequence of requests from a state, discarding responses. -/
def runAll (s : AppState) : List Request → AppState
  | [] => s
  | r :: rs => runAll (dispatch s r).1 rs

/-- `n` sequential `POST /vote` submissions of option `O` via the form field,
threading the vote store. -/
def iterVote (O : String) : Nat → VStore → VStore
  | 0, v => v
  | n + 1, v => (vote ⟨some O, none⟩ (iterVote O n v)).1

/-- The C8 scenario workload: 3 votes for Python then 2 for Java. -/
def fiveVotes : List Request :=
  [Request.voteReq ⟨some "Python", none⟩ 0, Request.voteReq ⟨some "Python", none⟩ 0,
   Request.voteReq ⟨some "Python", none⟩ 0, Request.voteReq ⟨some "Java", none⟩ 0,
   Request.voteReq ⟨some "Java", none⟩ 0]

/-! ### Dictionary lemmas -/

theorem dictGet_dictIncr_self (v : VStore) (k : String) (c : Nat)
    (h : dictGet v k = some c) : dictGet (dictIncr v k) k = some (c + 1) := by
  induction v with
  | nil => simp [dictGet] at h
  | cons p rest ih =>
    obtain ⟨a, b⟩ := p
    by_cases hak : a = k
    · subst hak
      simp [dictGet] at h
      simp [dictIncr, dictGet, h]
    · simp only [dictGet, if_neg hak] at h
      simp [dictIncr, dictGet, hak, ih h]

theorem dictGet_dictIncr_ne (v : VStore) (k j : String) (hk : k ≠ j) :
    dictGet (dictIncr v j) k = dictGet v k := by
  induction v with
  | nil => rfl
  | cons p rest ih =>
    obtain ⟨a, b⟩ := p
    by_cases haj : a = j
    · subst haj
      have hak : ¬ a = k := fun h => hk h.symm
      simp [dictIncr, dictGet, hak]
    · by_cases hak : a = k
      · simp [dictIncr, dictGet, haj, hak, hk]
      · simp [dictIncr, dictGet, haj, hak, ih]

theorem dictKeys_dictIncr (v : VStore) (j : String) :
    dictKeys (dictIncr v j) = dictKeys v := by
  induction v with
  | nil => rfl
  | cons p rest ih =>
    obtain ⟨a, b⟩ := p
    by_cases haj : a = j
    · simp [dictIncr, dictKeys, haj]
    · simpa [dictIncr, dictKeys, haj] using ih

/-! ### Metrics registry lemmas -/

theorem counterGet_counterInc_self (c : List ((String × String) × Nat))
    (l : String × String) : counterGet (counterInc c l) l = counterGet c l + 1 := by
  induction c with
  | nil => simp [counterInc, counterGet]
  | cons p rest ih =>
    obtain ⟨k, n⟩ := p
    by_cases hk : k = l
    · subst hk
      simp [counterInc, counterGet]
    · simp [counterInc, counterGet, hk, ih]

theorem histCount_histObserve_self (h : List (String × List Nat))
    (e : String) (d : Nat) :
    histCount (histObserve h e d) e = histCount h e + 1 := by
  induction h with
  | nil => simp [histObserve, histCount]
  | cons p rest ih =>
    obtain ⟨k, ds⟩ := p
    by_cases hk : k = e
    · subst hk
      simp [histObserve, histCount]
    · simp [histObserve, histCount, hk, ih]

/-! ### Vote handler lemmas -/

theorem vote_valid (req : VoteRequest) (O : String) (v : VStore) (c : Nat)
    (hreq : pyOr req.form req.json = some O) (hO : O ≠ "")
    (hc : dictGet v O = some c) :
    vote req v = (dictIncr v O, Resp.jsonR (Json.obj
      [("message", Json.str ("Vote for " ++ O ++ " recorded!")),
       ("votes", jsonOfVotes (dictIncr v O))]) 200) := by
  unfold vote
  rw [hreq]
  simp [hO, dictContains, hc]

theorem vote_invalid (req : VoteRequest) (l : String) (v : VStore)
    (hreq : pyOr req.form req.json = some l) (hl : l ≠ "")
    (hm : dictGet v l = none) :
    vote req v = (v, Resp.jsonR (Json.obj
      [("error", Json.str ("Invalid choice. Valid: " ++ pyListRepr (dictKeys v)))]) 400) := by
  unfold vote
  rw [hreq]
  simp [hl, dictContains, hm]

theorem vote_keys (req : VoteRequest) (v : VStore) :
    dictKeys (vote req v).1 = dictKeys v := by
  unfold vote
  cases hp : pyOr req.form req.json with
  | none => rfl
  | some l =>
    by_cases h1 : l = ""
    · simp [h1]
    · cases h2 : dictContains v l with
      | false => simp [h1, h2]
      | true => simp [h1, h2, dictKeys_dictIncr]

theorem vote_monotone (req : VoteRequest) (v : VStore) (k : String) (c : Nat)
    (h : dictGet v k = some c) :
    ∃ c2, dictGet (vote req v).1 k = some c2 ∧ c ≤ c2 := by
  unfold vote
  cases hp : pyOr req.form req.json with
  | none => exact ⟨c, h, Nat.le_refl c⟩
  | some l =>
    by_cases h1 : l = ""
    · simp only [h1, reduceIte]
      exact ⟨c, h, Nat.le_refl c⟩
    · cases h2 : dictContains v l with
      | false =>
        simp [h1, h2]
        exact ⟨c, h, Nat.le_refl c⟩
      | true =>
        simp only [h1, h2, if_neg h1, Bool.true_eq_false, if_false]
        by_cases hkl : k = l
        · subst hkl
          refine ⟨c + 1, ?_, Nat.le_succ c⟩
          simp [dictGet_dictIncr_self v k c h]
        · refine ⟨c, ?_, Nat.le_refl c⟩
          simp [dictGet_dictIncr_ne v k l hkl, h]

theorem vote_frame (O k : String) (w : VStore) (hk : k ≠ O) :
    dictGet (vote ⟨some O, none⟩ w).1 k = dictGet w k := by
  cases hp : pyOr (some O) none with
  | none =>
    unfold vote
    rw [hp]
  | some l =>
    have hl : l = O := by
      unfold pyOr at hp
      by_cases h : O = ""
      · simp [h] at hp
      · simp only [if_neg h] at hp
        exact (Option.some.inj hp).symm
    subst hl
    unfold vote
    rw [hp]
    by_cases h1 : l = ""
    · simp [h1]
    · cases h2 : dictContains w l with
      | false => simp [h1, h2]
      | true => simp [h1, h2, dictGet_dictIncr_ne w k l hk]

/-! ### Dispatch and run lemmas -/

theorem dispatch_keys (s : AppState) (r : Request) :
    dictKeys (dispatch s r).1.votes = dictKeys s.votes := by
  cases r with
  | homeReq d => rfl
  | voteReq vr d => exact vote_keys vr s.votes
  | resultReq d => rfl
  | metricsReq => rfl

theorem dispatch_monotone (s : AppState) (r : Request) (k : String) (c : Nat)
    (h : dictGet s.votes k = some c) :
    ∃ c2, dictGet (dispatch s r).1.votes k = some c2 ∧ c ≤ c2 := by
  cases r with
  | homeReq d => exact ⟨c, h, Nat.le_refl c⟩
  | voteReq vr d => exact vote_monotone vr s.votes k c h
  | resultReq d => exact ⟨c, h, Nat.le_refl c⟩
  | metricsReq => exact ⟨c, h, Nat.le_refl c⟩

theorem runAll_keys (rs : List Request) (s : AppState) :
    dictKeys (runAll s rs).votes = dictKeys s.votes := by
  induction rs generalizing s with
  | nil => rfl
  | cons r rest ih =>
    show dictKeys (runAll (dispatch s r).1 rest).votes = dictKeys s.votes
    rw [ih, dispatch_keys]

/-! ### Iterated voting lemmas -/

theorem iterVote_get_self (O : String) (v : VStore) (c : Nat) (hO : O ≠ "")
    (hc : dictGet v O = some c) :
    ∀ n, dictGet (iterVote O n v) O = some (c + n) := by
  intro n
  induction n with
  | zero => simpa using hc
  | succ m ih =>
    show dictGet (vote ⟨some O, none⟩ (iterVote O m v)).1 O = some (c + (m + 1))
    rw [vote_valid ⟨some O, none⟩ O (iterVote O m v) (c + m) (by simp [pyOr, hO]) hO ih]
    exact dictGet_dictIncr_self (iterVote O m v) O (c + m) ih

theorem iterVote_frame (O k : String) (v : VStore) (hk : k ≠ O) (n : Nat) :
    dictGet (iterVote O n v) k = dictGet v k := by
  induction n with
  | zero => rfl
  | succ m ih =>
    show dictGet (vote ⟨some O, none⟩ (iterVote O m v)).1 k = dictGet v k
    rw [vote_frame O k (iterVote O m v) hk, ih]

/-! ### Claims -/

/-- C1: For every option string L in the fixed set {"Python", "Java", "Go"},
a POST /vote request supplying L increments the tally for L by exactly 1 and
returns status 200 with a body containing the message "Vote for {L} recorded!"
and the full updated tally map under the key "votes". -/
theorem C1_vote_success (L : String) (req : VoteRequest) (v : VStore) (c : Nat)
    (hL : L ∈ (["Python", "Java", "Go"] : List String))
    (hreq : pyOr req.form req.json = some L)
    (hc : dictGet v L = some c) :
    vote req v = (dictIncr v L, Resp.jsonR (Json.obj
      [("message", Json.str ("Vote for " ++ L ++ " recorded!")),
       ("votes", jsonOfVotes (dictIncr v L))]) 200)
    ∧ dictGet (dictIncr v L) L = some (c + 1) := by
  have hO : L ≠ "" := by
    simp only [List.mem_cons, List.not_mem_nil, or_false] at hL
    rcases hL with rfl | rfl | rfl <;> decide
  exact ⟨vote_valid req L v c hreq hO hc, dictGet_dictIncr_self v L c hc⟩

theorem C1_vote_success_witness :
    vote ⟨some "Go", none⟩ initVotes = (dictIncr initVotes "Go", Resp.jsonR (Json.obj
      [("message", Json.str ("Vote for " ++ "Go" ++ " recorded!")),
       ("votes", jsonOfVotes (dictIncr initVotes "Go"))]) 200)
    ∧ dictGet (dictIncr initVotes "Go") "Go" = some (0 + 1) :=
  C1_vote_success "Go" ⟨some "Go", none⟩ initVotes 0 (by decide) (by decide) (by decide)

/-- C2: A POST /vote request that supplies no option value (neither a form
field nor a JSON field) returns status 400 with body
{"error": "No language provided"}, and the vote tally map is left unchanged. -/
theorem C2_missing_input (v : VStore) :
    vote ⟨none, none⟩ v = (v, Resp.jsonR errNoLanguage 400) := rfl

/-- C3: A POST /vote request supplying a non-empty option value that is not
one of the configured options returns status 400 with an InvalidOption error
whose message lists exactly the configured options ["Python","Java","Go"],
and the vote tally map is left unchanged. -/
theorem C3_invalid_option (req : VoteRequest) (l : String) (v : VStore)
    (hreq : pyOr req.form req.json = some l) (hl : l ≠ "")
    (hm : dictGet v l = none)
    (hkeys : dictKeys v = ["Python", "Java", "Go"]) :
    vote req v = (v, Resp.jsonR (Json.obj
      [("error", Json.str
        ("Invalid choice. Valid: " ++ pyListRepr ["Python", "Java", "Go"]))]) 400) := by
  rw [vote_invalid req l v hreq hl hm, hkeys]

theorem C3_invalid_option_witness :
    vote ⟨none, some "Rust"⟩ initVotes = (initVotes, Resp.jsonR (Json.obj
      [("error", Json.str
        ("Invalid choice. Valid: " ++ pyListRepr ["Python", "Java", "Go"]))]) 400) :=
  C3_invalid_option ⟨none, some "Rust"⟩ "Rust" initVotes
    (by decide) (by decide) (by decide) (by decide)

/-- C4: Invariant on the vote store state, starting from
{"Python": 0, "Java": 0, "Go": 0} and preserved by every operation (home,
vote, result, metrics): the key set is always exactly {"Python","Java","Go"}
— no key added or removed — and each option's count is a non-negative
integer (a Nat here) that never decreases. -/
theorem C4_store_invariant :
    (dictKeys initVotes = ["Python", "Java", "Go"]
      ∧ ∀ k c, dictGet initVotes k = some c → c = 0)
    ∧ (∀ (s : AppState) (r : Request),
        dictKeys (dispatch s r).1.votes = dictKeys s.votes
        ∧ ∀ k c, dictGet s.votes k = some c →
            ∃ c2, dictGet (dispatch s r).1.votes k = some c2 ∧ c ≤ c2)
    ∧ (∀ rs : List Request,
        dictKeys (runAll initAppState rs).votes = ["Python", "Java", "Go"]) := by
  refine ⟨⟨by decide, ?_⟩, fun s r => ⟨dispatch_keys s r, fun k c h => dispatch_monotone s r k c h⟩, fun rs => ?_⟩
  · intro k c h
    simp only [initVotes, dictGet] at h
    split at h
    · exact (Option.some.inj h).symm
    · split at h
      · exact (Option.some.inj h).symm
      · split at h
        · exact (Option.some.inj h).symm
        · exact absurd h (by simp)
  · rw [runAll_keys]
    decide

theorem C4_store_invariant_witness :
    ∃ c2, dictGet (dispatch initAppState
        (Request.voteReq ⟨some "Go", none⟩ 0)).1.votes "Go" = some c2 ∧ 0 ≤ c2 :=
  (C4_store_invariant.2.1 initAppState
    (Request.voteReq ⟨some "Go", none⟩ 0)).2 "Go" 0 (by decide)

/-- C5: For every valid option O and every natural number N, performing N
successful sequential votes for O from any state increases the value reported
for O by GET /result by exactly N, while the value of every other key is
unchanged (and each of the N votes indeed succeeds with status 200). -/
theorem C5_sequential_votes (O : String) (n : Nat) (v : VStore) (c : Nat)
    (hO : O ≠ "") (hc : dictGet v O = some c) :
    dictGet (iterVote O n v) O = some (c + n)
    ∧ (∀ k, k ≠ O → dictGet (iterVote O n v) k = dictGet v k)
    ∧ (∀ i, respStatus (vote ⟨some O, none⟩ (iterVote O i v)).2 = 200)
    ∧ result (iterVote O n v)
        = (iterVote O n v, Resp.jsonR (jsonOfVotes (iterVote O n v)) 200) := by
  refine ⟨iterVote_get_self O v c hO hc n,
    fun k hk => iterVote_frame O k v hk n, fun i => ?_, rfl⟩
  rw [vote_valid ⟨some O, none⟩ O (iterVote O i v) (c + i)
    (by simp [pyOr, hO]) hO (iterVote_get_self O v c hO hc i)]
  rfl

theorem C5_sequential_votes_witness :
    dictGet (iterVote "Python" 3 initVotes) "Python" = some (0 + 3) :=
  (C5_sequential_votes "Python" 3 initVotes 0 (by decide) (by decide)).1

/-- C6 counterexample: the claim says the handler uses the form field
`language` whenever form data is present, falling back to the JSON field only
when form data is absent.  But line 88 uses Python `or`, whose fallback also
triggers on a present-but-empty form field: with form `language=` (empty
string) and JSON `{"language": "Go"}`, the handler records a vote for Go
with status 200, while the same form data alone yields the 400 MissingInput
response — so the JSON value was used although form data was present. -/
theorem C6_form_precedence_counterexample :
    (vote ⟨some "", some "Go"⟩ initVotes).1 = [("Python", 0), ("Java", 0), ("Go", 1)]
    ∧ respStatus (vote ⟨some "", some "Go"⟩ initVotes).2 = 200
    ∧ vote ⟨some "", none⟩ initVotes = (initVotes, Resp.jsonR errNoLanguage 400)
    ∧ (200 : Nat) ≠ 400 :=
  ⟨rfl, rfl, rfl, by decide⟩

/-- C6 (amended): the handler uses the form field `language` when it is
present and non-empty, and falls back to the JSON body's "language" field
whenever the form field is absent or its value is the empty string (Python
`or` treats the empty string as missing). -/
theorem C6_form_precedence_amended (req : VoteRequest) (v : VStore) :
    (∀ f, req.form = some f → f ≠ "" → vote req v = vote ⟨some f, none⟩ v)
    ∧ ((req.form = none ∨ req.form = some "") → vote req v = vote ⟨none, req.json⟩ v) := by
  constructor
  · intro f hf hne
    unfold vote
    rw [show pyOr req.form req.json = some f from by rw [hf]; simp [pyOr, hne]]
    rw [show pyOr (some f) none = some f from by simp [pyOr, hne]]
  · intro h
    unfold vote
    have he : pyOr req.form req.json = pyOr none req.json := by
      rcases h with h | h
      · rw [h]
      · rw [h]
        simp [pyOr]
    rw [he]

theorem C6_form_precedence_amended_witness :
    vote ⟨some "Java", some "Go"⟩ initVotes = vote ⟨some "Java", none⟩ initVotes
    ∧ vote ⟨some "", some "Go"⟩ initVotes = vote ⟨none, some "Go"⟩ initVotes :=
  ⟨(C6_form_precedence_amended ⟨some "Java", some "Go"⟩ initVotes).1 "Java" rfl (by decide),
   (C6_form_precedence_amended ⟨some "", some "Go"⟩ initVotes).2 (Or.inr rfl)⟩

/-- C7: For every wrapped handler and every request to it, the metrics
wrapper increments the request counter (computed from the pre-invocation
registry, i.e. before the handler runs) for the (endpoint, method) label pair
by exactly one, records exactly one latency observation for the endpoint
after the handler returns, and returns exactly the handler's return value
(body and status code) unaltered, threading the handler's store update. -/
theorem C7_wrapper_spec (e m : String) (func : VStore → VStore × Resp)
    (dur : Nat) (s : AppState) :
    (track_metrics e m func dur s).2 = (func s.votes).2
    ∧ (track_metrics e m func dur s).1.votes = (func s.votes).1
    ∧ (track_metrics e m func dur s).1.requestCount = counterInc s.requestCount (e, m)
    ∧ (track_metrics e m func dur s).1.responseTime = histObserve s.responseTime e dur
    ∧ counterGet (track_metrics e m func dur s).1.requestCount (e, m)
        = counterGet s.requestCount (e, m) + 1
    ∧ histCount (track_metrics e m func dur s).1.responseTime e
        = histCount s.responseTime e + 1 :=
  ⟨rfl, rfl, rfl, rfl, counterGet_counterInc_self s.requestCount (e, m),
    histCount_histObserve_self s.responseTime e dur⟩

/-- C8: Every request dispatched to a wrapped endpoint increments the request
counter for that (endpoint, method) label pair by exactly one; in particular,
after 3 votes for Python and 2 for Java (5 requests to /vote in total) the
counter sample for endpoint "/vote" equals 5. -/
theorem C8_request_counter :
    (∀ (s : AppState) (d : Nat),
      counterGet (dispatch s (Request.homeReq d)).1.requestCount ("/", "GET")
        = counterGet s.requestCount ("/", "GET") + 1)
    ∧ (∀ (s : AppState) (vr : VoteRequest) (d : Nat),
      counterGet (dispatch s (Request.voteReq vr d)).1.requestCount ("/vote", "POST")
        = counterGet s.requestCount ("/vote", "POST") + 1)
    ∧ (∀ (s : AppState) (d : Nat),
      counterGet (dispatch s (Request.resultReq d)).1.requestCount ("/result", "GET")
        = counterGet s.requestCount ("/result", "GET") + 1)
    ∧ counterGet (runAll initAppState fiveVotes).requestCount ("/vote", "POST") = 5 :=
  ⟨fun s d => counterGet_counterInc_self s.requestCount ("/", "GET"),
   fun s vr d => counterGet_counterInc_self s.requestCount ("/vote", "POST"),
   fun s d => counterGet_counterInc_self s.requestCount ("/result", "GET"),
   by decide⟩

/-- C9: GET /result is read-only and never fails: it returns the current
tally map with status 200, leaves the vote store unchanged, and calling it
twice from the same state with no intervening vote returns identical
responses. -/
theorem C9_result_readonly (v : VStore) :
    result v = (v, Resp.jsonR (jsonOfVotes v) 200)
    ∧ (result v).1 = v
    ∧ (result ((result v).1)).2 = (result v).2 :=
  ⟨rfl, rfl, rfl⟩

/-- C10: For every POST /vote request whose supplied option value is the
empty string (an empty form field with no JSON "language" field, a JSON
"language" equal to "", or both), the handler returns the MissingInput error
{"error": "No language provided"} with status 400 — never the InvalidOption
error — and the tally map is unchanged. -/
theorem C10_empty_language (v : VStore) (req : VoteRequest)
    (h : req = ⟨some "", none⟩ ∨ req = ⟨none, some ""⟩ ∨ req = ⟨some "", some ""⟩) :
    vote req v = (v, Resp.jsonR errNoLanguage 400) := by
  rcases h with rfl | rfl | rfl <;> rfl

theorem C10_empty_language_witness :
    vote ⟨some "", none⟩ initVotes = (initVotes, Resp.jsonR errNoLanguage 400) :=
  C10_empty_language initVotes ⟨some "", none⟩ (Or.inl rfl)
